import Mathlib

/-!
Shallow embedding of the conversation-state and turn-orchestration core of
the Julu chat client (`src/App.js`).

The React component state that the core logic reads and writes is modelled
as an explicit `AppState` record; each event handler of the source
(`handleSend`, `createNewChat`, `deleteChat`, `renameChat`, `saveApiKey`,
clicking a history item) becomes a state-transition function.  The
asynchronous `handleSend` is split at its single suspension point (the
gateway call) into a synchronous submission phase and a synchronous
resolution phase; the values the source closure captures at submission time
(the active chat id and the pre-append `currentChat`) are carried across the
suspension in an explicit `PendingTurn` record.  JavaScript string builtins
(`trim`, `slice`, `length`) are modelled by structurally recursive functions
on the character list so that concrete states evaluate.
-/

/-- Model of JavaScript `String.prototype.trim`: drop leading and trailing
whitespace characters. -/
def jsTrim (s : String) : String :=
  ⟨((s.data.dropWhile Char.isWhitespace).reverse.dropWhile Char.isWhitespace).reverse⟩

/-- Model of JavaScript `str.slice(0, n)`: the first `n` characters. -/
def jsTake (s : String) (n : Nat) : String :=
  ⟨s.data.take n⟩

/-- Model of JavaScript `str.length` (for the ASCII strings involved the
UTF-16 code-unit count coincides with the character count). -/
def jsLength (s : String) : Nat :=
  s.data.length

/-- A chat message: `{ role, text }` in the source.  `role` is `"user"` for
user turns and `"bot"` for assistant turns. -/
structure Message where
  role : String
  text : String
deriving DecidableEq

/-- A conversation thread: `{ id, title, messages }` in the source. -/
structure Chat where
  id : Nat
  title : String
  messages : List Message
deriving DecidableEq

/-- The component state touched by the core logic of `App.js`. -/
structure AppState where
  apiKey : String
  chats : List Chat
  activeChatId : Nat
  currentModel : String
  systemRules : String
  userInput : String
  tempKeyInput : String
  isLoading : Bool
  isPanelOpen : Bool
deriving DecidableEq

/-- The initial state when nothing is in local storage: one empty chat with
id 1, active, default model and rules (`useState` initialisers). -/
def initialState : AppState :=
  { apiKey := ""
    chats := [⟨1, "New Chat", []⟩]
    activeChatId := 1
    currentModel := "gemini-3-flash-preview"
    systemRules := "You are Julu, a helpful and friendly AI assistant."
    userInput := ""
    tempKeyInput := ""
    isLoading := false
    isPanelOpen := false }

/-- Model of `const currentChat = chats.find(c => c.id === activeChatId) || chats[0]`;
`none` corresponds to `chats[0]` being `undefined` (empty collection). -/
def currentChatOpt (s : AppState) : Option Chat :=
  match s.chats.find? (fun c => c.id == s.activeChatId) with
  | some c => some c
  | none => s.chats.head?

/-- `currentChat` with a default for the unreachable empty-collection case
(the source would dereference `undefined` there). -/
def currentChatD (s : AppState) : Chat :=
  (currentChatOpt s).getD ⟨0, "", []⟩

/-- One entry of the multi-turn history sent to the gateway:
`{ role, parts: [{ text }] }` in the source, with the single-element
`parts` array flattened to its text. -/
structure GatewayTurn where
  role : String
  text : String
deriving DecidableEq

/-- The request material handed to the gateway for one turn: the model name
and system instruction passed to `getGenerativeModel`, the `history` and
`generationConfig.maxOutputTokens` passed to `startChat`, and the new text
passed to `sendMessage`. -/
structure GatewayRequest where
  modelName : String
  systemInstruction : String
  history : List GatewayTurn
  maxOutputTokens : Nat
  newMessage : String
deriving DecidableEq

/-- Values captured by the `handleSend` closure at submission time and used
after the gateway call resolves: the active chat id (the append target) and
the already-built request. -/
structure PendingTurn where
  targetId : Nat
  request : GatewayRequest
deriving DecidableEq

/-- Model of `history = currentChat.messages.map(msg => ({ role: msg.role ===
'user' ? 'user' : 'model', parts: [{ text: msg.text }] }))`. -/
def buildHistory (msgs : List Message) : List GatewayTurn :=
  msgs.map (fun m => ⟨if m.role = "user" then "user" else "model", m.text⟩)

/-- The synchronous prefix of `handleSend`, up to the gateway call: the
empty-input guard, the missing-key guard (which opens the side panel), the
optimistic append of the user message with title derivation, and the
construction of the request from the captured pre-append `currentChat`.
Returns the new state and, when a gateway call is started, the captured
`PendingTurn`. -/
def handleSendSubmit (s : AppState) : AppState × Option PendingTurn :=
  if jsTrim s.userInput = "" then (s, none)
  else if s.apiKey = "" then ({ s with isPanelOpen := true }, none)
  else
    ({ s with
        isLoading := true
        userInput := ""
        chats := s.chats.map (fun chat =>
          if chat.id = s.activeChatId then
            { chat with
              title := if chat.messages.length = 0
                       then jsTake s.userInput 20 ++ "..."
                       else chat.title
              messages := chat.messages ++ [⟨"user", s.userInput⟩] }
          else chat) },
     some ⟨s.activeChatId,
       ⟨s.currentModel, s.systemRules, buildHistory (currentChatD s).messages,
         1000, s.userInput⟩⟩)

/-- Model of `setChats(prev => prev.map(chat => chat.id === id ? { ...chat,
messages: [...chat.messages, m] } : chat))` — the shape of both resolution
branches of `handleSend`. -/
def appendToChat (chats : List Chat) (id : Nat) (m : Message) : List Chat :=
  chats.map (fun chat =>
    if chat.id = id then { chat with messages := chat.messages ++ [m] }
    else chat)

/-- The fixed text appended on a gateway failure (the `catch` branch). -/
def gatewayFailText : String :=
  "**Error:** Could not connect. \n\n1. Check your internet.\n2. Check if your API Key is correct in the Side Panel."

/-- The assistant message appended on resolution: the returned text on
success, the fixed error notice on failure (the caught error itself is only
logged, never inspected). -/
def botMessageOf (res : Except String String) : Message :=
  match res with
  | .ok t => ⟨"bot", t⟩
  | .error _ => ⟨"bot", gatewayFailText⟩

/-- The continuation of `handleSend` after the gateway call resolves:
append the assistant message to the chat whose id was captured at
submission time, then `setIsLoading(false)`.  Runs against the state
current at resolution time (`setChats(prev => ...)`). -/
def handleSendResolve (s : AppState) (targetId : Nat)
    (res : Except String String) : AppState :=
  { s with chats := appendToChat s.chats targetId (botMessageOf res)
           isLoading := false }

/-- Model of `createNewChat`: prepend a fresh empty chat, activate it, close
the panel.  The `Date.now()` id is an explicit parameter. -/
def createNewChat (s : AppState) (newId : Nat) : AppState :=
  { s with chats := ⟨newId, "New Chat", []⟩ :: s.chats
           activeChatId := newId
           isPanelOpen := false }

/-- Model of `deleteChat`: remove the chat with the given id; if the collection
becomes empty, replace it with a fresh chat (without touching the active
id); otherwise, if the deleted chat was active, activate the new first
entry. -/
def deleteChat (s : AppState) (id newId : Nat) : AppState :=
  match s.chats.filter (fun c => !(c.id == id)) with
  | [] => { s with chats := [⟨newId, "New Chat", []⟩] }
  | c :: rest =>
      { s with chats := c :: rest
               activeChatId := if s.activeChatId = id then c.id
                               else s.activeChatId }

/-- Model of `renameChat`, with the `prompt` result as a parameter; a cancelled
prompt (null) and the empty string are both falsy, hence no-ops. -/
def renameChat (s : AppState) (id : Nat) (newName : String) : AppState :=
  if newName = "" then s
  else { s with chats := s.chats.map (fun c =>
          if c.id = id then { c with title := newName } else c) }

/-- Model of `saveApiKey`: accept the candidate exactly when its trimmed length
exceeds 10; on acceptance store the trimmed key and clear the temporary
input box. -/
def saveApiKey (s : AppState) : AppState :=
  if 10 < jsLength (jsTrim s.tempKeyInput) then
    { s with apiKey := jsTrim s.tempKeyInput, tempKeyInput := "" }
  else s

/-- Clicking a history item: `setActiveChatId(chat.id); setIsPanelOpen(false)`
(no membership check in the source). -/
def setActiveChat (s : AppState) (id : Nat) : AppState :=
  { s with activeChatId := id, isPanelOpen := false }

/-- The Send button: `onClick={handleSend} disabled={isLoading}` — a click
while loading does nothing. -/
def sendViaButton (s : AppState) : AppState × Option PendingTurn :=
  if s.isLoading then (s, none) else handleSendSubmit s

/-- The input box: `onKeyPress={(e) => e.key === 'Enter' && handleSend()}`
— the Enter key invokes `handleSend` with no loading guard. -/
def sendViaEnter (s : AppState) : AppState × Option PendingTurn :=
  handleSendSubmit s

/-- One repository operation of the kind claim C1 quantifies over, with the
`Date.now()` ids made explicit. -/
inductive RepoOp where
  | create (newId : Nat)
  | delete (id newId : Nat)
deriving DecidableEq

/-- Apply one repository operation. -/
def applyOp (s : AppState) (op : RepoOp) : AppState :=
  match op with
  | .create newId => createNewChat s newId
  | .delete id newId => deleteChat s id newId

/-- Apply a sequence of repository operations in order. -/
def applyOps (s : AppState) (ops : List RepoOp) : AppState :=
  ops.foldl applyOp s

/-- Does the active id resolve to a member of the collection? -/
def activeResolves (s : AppState) : Bool :=
  s.chats.any (fun c => c.id == s.activeChatId)

/-- A JSON document, at the value level reached after `JSON.parse`: the
persisted collection only involves numbers (chat ids), strings, arrays and
objects. -/
inductive JsonVal where
  | num (n : Nat)
  | str (s : String)
  | arr (items : List JsonVal)
  | obj (fields : List (String × JsonVal))

/-- The persisted shape of one message: `{ role, text }`. -/
def jsonEncodeMessage (m : Message) : JsonVal :=
  .obj [("role", .str m.role), ("text", .str m.text)]

/-- The persisted shape of one chat: `{ id, title, messages }`. -/
def jsonEncodeChat (c : Chat) : JsonVal :=
  .obj [("id", .num c.id), ("title", .str c.title),
        ("messages", .arr (c.messages.map jsonEncodeMessage))]

/-- Model of `JSON.stringify(chats)` at the value level: the persisted
collection is the array of encoded chats. -/
def jsonEncodeChats (cs : List Chat) : JsonVal :=
  .arr (cs.map jsonEncodeChat)

/-- Reconstruct one message from its persisted shape. -/
def jsonDecodeMessage : JsonVal → Option Message
  | .obj [("role", .str r), ("text", .str t)] => some ⟨r, t⟩
  | _ => none

/-- Reconstruct a message list from an array of persisted messages. -/
def jsonDecodeMessages : List JsonVal → Option (List Message)
  | [] => some []
  | v :: vs =>
      match jsonDecodeMessage v, jsonDecodeMessages vs with
      | some m, some ms => some (m :: ms)
      | _, _ => none

/-- Reconstruct one chat from its persisted shape. -/
def jsonDecodeChat : JsonVal → Option Chat
  | .obj [("id", .num i), ("title", .str t), ("messages", .arr vs)] =>
      match jsonDecodeMessages vs with
      | some ms => some ⟨i, t, ms⟩
      | none => none
  | _ => none

/-- Reconstruct a chat list from an array of persisted chats. -/
def jsonDecodeChatList : List JsonVal → Option (List Chat)
  | [] => some []
  | v :: vs =>
      match jsonDecodeChat v, jsonDecodeChatList vs with
      | some c, some cs => some (c :: cs)
      | _, _ => none

/-- Model of `JSON.parse(saved)` at the value level: reconstruct the
collection. -/
def jsonDecodeChats : JsonVal → Option (List Chat)
  | .arr vs => jsonDecodeChatList vs
  | _ => none

/-- Does `needle` occur as a contiguous substring of `hay`?  Used to state
the spec phrase "includes the failure reason" about the error notice. -/
def textIncludes (hay needle : List Char) : Bool :=
  match hay with
  | [] => needle == []
  | _ :: t => needle.isPrefixOf hay || textIncludes t needle

/-- A state with a credential and a pending user turn, used to exercise
`handleSend`: input `"hi"` typed into the initial state. -/
def st0 : AppState :=
  { initialState with apiKey := "k1234567890x", userInput := "hi" }

/-- The state `handleSendSubmit st0` leaves behind. -/
def st0after : AppState :=
  { st0 with
      isLoading := true
      userInput := ""
      chats := [⟨1, "hi...", [⟨"user", "hi"⟩]⟩] }

/-- The pending turn `handleSendSubmit st0` captures. -/
def p0 : PendingTurn :=
  ⟨1, ⟨"gemini-3-flash-preview",
       "You are Julu, a helpful and friendly AI assistant.", [], 1000, "hi"⟩⟩

/-- A state in which a turn is already in flight (`isLoading`) while new
text sits in the input box. -/
def stC2 : AppState :=
  { initialState with
      apiKey := "k1234567890x"
      userInput := "hi again"
      isLoading := true
      chats := [⟨1, "T", [⟨"user", "a"⟩, ⟨"bot", "b"⟩]⟩] }

/-- A credential-less state with non-empty input. -/
def stC4 : AppState :=
  { initialState with userInput := "hi" }

/-- A state about to submit a first message long enough to truncate. -/
def st5 : AppState :=
  { initialState with
      apiKey := "k1234567890x"
      userInput := "Hello there, how are you today" }

/-- The state `handleSendSubmit (renameChat st5 1 "MyName")` leaves behind. -/
def st5after : AppState :=
  { st5 with
      isLoading := true
      userInput := ""
      chats := [⟨1, "Hello there, how are...",
                 [⟨"user", "Hello there, how are you today"⟩]⟩] }

/-- The pending turn captured by that submission. -/
def p5 : PendingTurn :=
  ⟨1, ⟨"gemini-3-flash-preview",
       "You are Julu, a helpful and friendly AI assistant.", [], 1000,
       "Hello there, how are you today"⟩⟩

/-- A state with a credential and whitespace-only input. -/
def st8 : AppState :=
  { initialState with apiKey := "k1234567890x", userInput := " " }

/-- A candidate key that trims to 11 characters, hence is accepted. -/
def stC10a : AppState :=
  { initialState with tempKeyInput := " k1234567890 " }

/-- A candidate key that is too short, hence is rejected. -/
def stC10b : AppState :=
  { initialState with apiKey := "oldkey", tempKeyInput := "short" }

/-- Every repository operation leaves the collection non-empty. -/
theorem applyOp_chats_ne_nil (s : AppState) (op : RepoOp) :
    (applyOp s op).chats ≠ [] := by
  cases op with
  | create newId => simp [applyOp, createNewChat]
  | delete id newId =>
      simp only [applyOp, deleteChat]
      split <;> simp

/-- A trace of repository operations leaves the collection non-empty. -/
theorem applyOps_chats_ne_nil (ops : List RepoOp) (s : AppState)
    (h : s.chats ≠ []) : (applyOps s ops).chats ≠ [] := by
  induction ops generalizing s with
  | nil => exact h
  | cons op t ih => exact ih (applyOp s op) (applyOp_chats_ne_nil s op)

/-- On a non-empty collection the `currentChat` fallback always produces a
member of the collection. -/
theorem currentChatOpt_mem (s : AppState) (h : s.chats ≠ []) :
    ∃ c, currentChatOpt s = some c ∧ c ∈ s.chats := by
  unfold currentChatOpt
  cases hf : s.chats.find? (fun c => c.id == s.activeChatId) with
  | some c => exact ⟨c, rfl, List.mem_of_find?_eq_some hf⟩
  | none =>
      cases hc : s.chats with
      | nil => exact absurd hc h
      | cons a t => exact ⟨a, rfl, List.mem_cons_self a t⟩

/-- C1 (amended): for every sequence of `createNewChat`/`deleteChat` calls
from the initial state, the conversation collection is non-empty and the
effective active conversation — the one the active id resolves to, or the
first conversation under the source's `|| chats[0]` fallback — is a member
of the collection.  (The active id itself can dangle after deleting the
last remaining conversation; see `C1_counterexample`.) -/
theorem C1_nonempty_and_effective_active (ops : List RepoOp) :
    (applyOps initialState ops).chats ≠ [] ∧
    ∃ c, currentChatOpt (applyOps initialState ops) = some c ∧
         c ∈ (applyOps initialState ops).chats := by
  have h := applyOps_chats_ne_nil ops initialState (by simp [initialState])
  exact ⟨h, currentChatOpt_mem _ h⟩

/-- C1 counterexample: deleting the only conversation (id 1) from the
initial state leaves the collection non-empty (a fresh chat with id 2 is
synthesised) but the active id still holds 1, which no longer references
any member of the collection. -/
theorem C1_counterexample :
    (applyOps initialState [RepoOp.delete 1 2]).chats ≠ [] ∧
    activeResolves (applyOps initialState [RepoOp.delete 1 2]) = false := by
  constructor
  · decide
  · decide

/-- C2 (amended): while a turn is Pending (`isLoading`), a submission via
the Send button has no observable effect (the button is disabled), but the
Enter-key path invokes `handleSend` unguarded — `handleSend` itself carries
no in-flight check, so an Enter-key submission behaves exactly like a fresh
call. -/
theorem C2_single_flight_button (s : AppState) (h : s.isLoading = true) :
    sendViaButton s = (s, none) ∧ sendViaEnter s = handleSendSubmit s := by
  refine ⟨?_, rfl⟩
  simp [sendViaButton, h]

theorem C2_witness :
    sendViaButton stC2 = (stC2, none) ∧
    sendViaEnter stC2 = handleSendSubmit stC2 :=
  C2_single_flight_button stC2 rfl

/-- C2 counterexample: in a state with a turn Pending (`isLoading`), a
credential, and fresh text in the input box, an Enter-key submission does
mutate conversation state (a second user message is appended) and starts a
second gateway call. -/
theorem C2_counterexample :
    stC2.isLoading = true ∧
    (sendViaEnter stC2).1.chats ≠ stC2.chats ∧
    (sendViaEnter stC2).2.isSome = true := by
  refine ⟨rfl, ?_, ?_⟩ <;> decide

/-- C4: when the credential is absent, `handleSend` with text whose trim is
non-empty fails before any history mutation: the chat collection (hence the
active conversation's message list) is unchanged, no gateway call is
started, and the only state change is opening the side panel alongside the
alert. -/
theorem C4_missing_credential (s : AppState) (hkey : s.apiKey = "")
    (hin : jsTrim s.userInput ≠ "") :
    (handleSendSubmit s).1.chats = s.chats ∧
    (handleSendSubmit s).2 = none ∧
    handleSendSubmit s = ({ s with isPanelOpen := true }, none) := by
  unfold handleSendSubmit
  rw [if_neg hin, if_pos hkey]
  exact ⟨rfl, rfl, rfl⟩

theorem C4_witness :
    (handleSendSubmit stC4).1.chats = stC4.chats ∧
    (handleSendSubmit stC4).2 = none ∧
    handleSendSubmit stC4 = ({ stC4 with isPanelOpen := true }, none) :=
  C4_missing_credential stC4 rfl (by decide)

/-- C8 (amended): given a credential, `handleSend` is a no-op (state
unchanged and no gateway call) exactly when the whitespace-trimmed text is
empty — not, as claimed, when the text is empty: whitespace-only input is
also a no-op.  The code has no attachment input at all. -/
theorem C8_noop_iff (s : AppState) (hkey : s.apiKey ≠ "") :
    handleSendSubmit s = (s, none) ↔ jsTrim s.userInput = "" := by
  constructor
  · intro h
    by_contra ht
    unfold handleSendSubmit at h
    rw [if_neg ht, if_neg hkey] at h
    exact absurd (congrArg Prod.snd h) (by simp)
  · intro ht
    unfold handleSendSubmit
    rw [if_pos ht]

theorem C8_witness : handleSendSubmit st8 = (st8, none) :=
  (C8_noop_iff st8 (by decide)).mpr (by decide)

/-- C8 counterexample: the single-space input is non-empty, yet
`handleSend` is a complete no-op on it, so "for every non-empty text it
proceeds past this precondition" fails. -/
theorem C8_counterexample :
    st8.userInput ≠ "" ∧ handleSendSubmit st8 = (st8, none) := by
  constructor <;> decide

/-- C10: `saveApiKey` accepts the candidate exactly when its
whitespace-trimmed length exceeds 10 characters; on acceptance the stored
credential becomes the trimmed input and the temporary input field is
cleared; on rejection the state (in particular the stored credential) is
unchanged. -/
theorem C10_save_api_key (s : AppState) :
    (10 < jsLength (jsTrim s.tempKeyInput) →
      (saveApiKey s).apiKey = jsTrim s.tempKeyInput ∧
      (saveApiKey s).tempKeyInput = "") ∧
    (jsLength (jsTrim s.tempKeyInput) ≤ 10 → saveApiKey s = s) := by
  constructor
  · intro h
    unfold saveApiKey
    rw [if_pos h]
    exact ⟨rfl, rfl⟩
  · intro h
    unfold saveApiKey
    rw [if_neg (Nat.not_lt.mpr h)]

theorem C10_witness :
    ((saveApiKey stC10a).apiKey = jsTrim stC10a.tempKeyInput ∧
     (saveApiKey stC10a).tempKeyInput = "") ∧
    saveApiKey stC10b = stC10b :=
  ⟨(C10_save_api_key stC10a).1 (by decide),
   (C10_save_api_key stC10b).2 (by decide)⟩

/-- Inversion of a successful submission: the guards passed, and the new
state and pending turn have the shapes written in `handleSendSubmit`. -/
theorem handleSendSubmit_inv {s s1 : AppState} {p : PendingTurn}
    (h : handleSendSubmit s = (s1, some p)) :
    jsTrim s.userInput ≠ "" ∧ s.apiKey ≠ "" ∧
    p = ⟨s.activeChatId,
      ⟨s.currentModel, s.systemRules, buildHistory (currentChatD s).messages,
        1000, s.userInput⟩⟩ ∧
    s1 = { s with
            isLoading := true
            userInput := ""
            chats := s.chats.map (fun chat =>
              if chat.id = s.activeChatId then
                { chat with
                  title := if chat.messages.length = 0
                           then jsTake s.userInput 20 ++ "..."
                           else chat.title
                  messages := chat.messages ++ [⟨"user", s.userInput⟩] }
              else chat) } := by
  unfold handleSendSubmit at h
  by_cases h1 : jsTrim s.userInput = ""
  · rw [if_pos h1] at h
    exact absurd (congrArg Prod.snd h) (by simp)
  · rw [if_neg h1] at h
    by_cases h2 : s.apiKey = ""
    · rw [if_pos h2] at h
      exact absurd (congrArg Prod.snd h) (by simp)
    · rw [if_neg h2] at h
      have hp := congrArg Prod.snd h
      have hs := congrArg Prod.fst h
      simp only [Option.some.injEq] at hp
      simp only at hs
      exact ⟨h1, h2, hp.symm, hs.symm⟩

/-- Mapping an id-preserving function commutes with lookup by id. -/
theorem find?_map_of_id_eq (g : Chat → Chat) (hg : ∀ x, (g x).id = x.id)
    (l : List Chat) (a : Nat) :
    (l.map g).find? (fun x => x.id == a) =
      (l.find? (fun x => x.id == a)).map g := by
  induction l with
  | nil => rfl
  | cons x t ih =>
      by_cases hx : x.id = a
      · simp [List.find?_cons, hg x, hx]
      · simp [List.find?_cons, hg x, hx, ih]

/-- Filtering by a predicate a map neither satisfies nor disturbs. -/
theorem filter_map_eq_of (f : Chat → Chat) (p : Chat → Bool)
    (hpf : ∀ x, p (f x) = p x) (hid : ∀ x, p x = true → f x = x)
    (l : List Chat) : (l.map f).filter p = l.filter p := by
  induction l with
  | nil => rfl
  | cons x t ih =>
      simp only [List.map, List.filter, hpf x]
      cases hx : p x with
      | true => rw [hid x hx, ih]
      | false => exact ih

/-- C3: a turn submitted while conversation A is active carries A's id in
its captured `PendingTurn`; if the active conversation is switched to B
before the gateway resolves, resolution (success or failure) still appends
the assistant message to A — precisely the chats whose id is A gain the
message — and B's entries in the collection are unchanged. -/
theorem C3_redirect_on_switch (s s1 : AppState) (p : PendingTurn) (B : Nat)
    (res : Except String String)
    (h : handleSendSubmit s = (s1, some p)) :
    p.targetId = s.activeChatId ∧
    (handleSendResolve (setActiveChat s1 B) p.targetId res).chats =
      s1.chats.map (fun c =>
        if c.id = s.activeChatId
        then { c with messages := c.messages ++ [botMessageOf res] }
        else c) ∧
    (B ≠ s.activeChatId →
      (handleSendResolve (setActiveChat s1 B) p.targetId res).chats.filter
          (fun c => c.id == B) =
        s1.chats.filter (fun c => c.id == B)) := by
  obtain ⟨-, -, hp, -⟩ := handleSendSubmit_inv h
  subst hp
  refine ⟨rfl, rfl, ?_⟩
  intro hB
  show (appendToChat s1.chats s.activeChatId (botMessageOf res)).filter _ = _
  unfold appendToChat
  refine filter_map_eq_of _ _ ?_ ?_ s1.chats
  · intro x
    by_cases hx : x.id = s.activeChatId <;> simp [hx]
  · intro x hx
    have : x.id = B := by simpa using hx
    rw [if_neg (by rw [this]; exact hB)]

theorem C3_witness :
    (handleSendResolve (setActiveChat st0after 2) p0.targetId
        (Except.ok "hello!")).chats.filter (fun c => c.id == 2) =
      st0after.chats.filter (fun c => c.id == 2) :=
  (C3_redirect_on_switch st0 st0after p0 2 (Except.ok "hello!")
    (by decide)).2.2 (by decide)

/-- Renaming touches only the chat titles, never the other state fields. -/
theorem renameChat_fields (s : AppState) (id : Nat) (n : String) :
    (renameChat s id n).userInput = s.userInput ∧
    (renameChat s id n).activeChatId = s.activeChatId ∧
    (renameChat s id n).apiKey = s.apiKey := by
  unfold renameChat
  split <;> exact ⟨rfl, rfl, rfl⟩

/-- C5 (amended): after renaming the active conversation and then
submitting, the active conversation's title is derived — the first 20
characters of the text plus "..." — whenever it had no messages, regardless
of the rename (there is no `titleLocked` flag), and is left unchanged
whenever messages already exist (so a second user message never re-derives
the title). -/
theorem C5_title_derivation (s : AppState) (name : String) (s1 : AppState)
    (p : PendingTurn) (c : Chat)
    (h : handleSendSubmit (renameChat s s.activeChatId name) = (s1, some p))
    (hc : (renameChat s s.activeChatId name).chats.find?
            (fun x => x.id == s.activeChatId) = some c) :
    s1.chats.find? (fun x => x.id == s.activeChatId) =
      some { c with
             title := if c.messages.length = 0
                      then jsTake s.userInput 20 ++ "..."
                      else c.title
             messages := c.messages ++ [⟨"user", s.userInput⟩] } := by
  obtain ⟨-, -, -, hs1⟩ := handleSendSubmit_inv h
  obtain ⟨hu, ha, -⟩ := renameChat_fields s s.activeChatId name
  subst hs1
  show ((renameChat s s.activeChatId name).chats.map _).find? _ = _
  simp only [hu, ha]
  rw [find?_map_of_id_eq _
    (fun x => by by_cases hx : x.id = s.activeChatId <;> simp [hx]), hc]
  have hcid : c.id = s.activeChatId := by simpa using List.find?_some hc
  simp [hcid]

theorem C5_witness :
    st5after.chats.find? (fun x => x.id == st5.activeChatId) =
      some ⟨1, "Hello there, how are...",
            [⟨"user", "Hello there, how are you today"⟩]⟩ := by
  have h := C5_title_derivation st5 "MyName" st5after p5 ⟨1, "MyName", []⟩
    (by decide) (by decide)
  exact h.trans (by decide)

/-- C5 counterexample: a conversation with no messages renamed to "MyName"
does not keep its name: the first user message overwrites the title with
the derived truncation, refuting "unless the conversation was already
renamed by the user". -/
theorem C5_counterexample :
    ((handleSendSubmit (renameChat st5 1 "MyName")).1.chats.map Chat.title) =
      ["Hello there, how are..."] ∧
    "Hello there, how are..." ≠ "MyName" := by
  constructor <;> decide

/-- C6 (amended): on gateway failure an assistant message whose text is the
fixed human-readable error notice is appended to the target conversation,
the in-flight flag is cleared, and the outcome is independent of the
failure reason (the caught error is only logged) — the failure is consumed,
never rethrown. -/
theorem C6_failure_notice (s : AppState) (targetId : Nat) (e : String) :
    (handleSendResolve s targetId (Except.error e)).isLoading = false ∧
    (handleSendResolve s targetId (Except.error e)).chats =
      s.chats.map (fun c =>
        if c.id = targetId
        then { c with messages := c.messages ++ [⟨"bot", gatewayFailText⟩] }
        else c) ∧
    handleSendResolve s targetId (Except.error e) =
      handleSendResolve s targetId (Except.error "") :=
  ⟨rfl, rfl, rfl⟩

/-- C6 counterexample: resolving a failure whose reason is "quota exceeded"
appends the fixed notice, and that notice does not include the failure
reason as a substring, refuting "includes the failure reason". -/
theorem C6_counterexample :
    (handleSendResolve initialState 1 (Except.error "quota exceeded")).chats =
      [⟨1, "New Chat", [⟨"bot", gatewayFailText⟩]⟩] ∧
    textIncludes gatewayFailText.data "quota exceeded".data = false := by
  constructor <;> decide

/-- C7: the request captured by a successful submission consists of the
target conversation's full prior history (the pre-append messages; the new
user message is carried separately in `newMessage`), each message's role
mapped to "user" when it is user and to "model" otherwise with its text
verbatim in order, the system instructions attached once out-of-band (a
separate field, not in the history list), and a fixed output-token cap
within 1000–2000 — while the stored conversation already holds the prior
messages plus the new user message. -/
theorem C7_request_shape (s s1 : AppState) (p : PendingTurn) (c : Chat)
    (h : handleSendSubmit s = (s1, some p))
    (hc : s.chats.find? (fun x => x.id == s.activeChatId) = some c) :
    p.request.history = c.messages.map (fun m =>
      GatewayTurn.mk (if m.role = "user" then "user" else "model") m.text) ∧
    p.request.newMessage = s.userInput ∧
    p.request.systemInstruction = s.systemRules ∧
    p.request.modelName = s.currentModel ∧
    (1000 ≤ p.request.maxOutputTokens ∧ p.request.maxOutputTokens ≤ 2000) ∧
    ∃ c1, s1.chats.find? (fun x => x.id == s.activeChatId) = some c1 ∧
      c1.messages = c.messages ++ [⟨"user", s.userInput⟩] := by
  obtain ⟨-, -, hp, hs1⟩ := handleSendSubmit_inv h
  subst hp hs1
  have hcur : currentChatD s = c := by
    unfold currentChatD currentChatOpt
    rw [hc]
    rfl
  have hcid : c.id = s.activeChatId := by simpa using List.find?_some hc
  refine ⟨by rw [hcur] ; rfl, rfl, rfl, rfl, ⟨Nat.le_refl _, by show (1000 : Nat) ≤ 2000; decide⟩, ?_⟩
  have hfind := find?_map_of_id_eq
    (fun chat => if chat.id = s.activeChatId then
      { chat with
        title := if chat.messages.length = 0
                 then jsTake s.userInput 20 ++ "..." else chat.title
        messages := chat.messages ++ [⟨"user", s.userInput⟩] }
      else chat)
    (fun x => by by_cases hx : x.id = s.activeChatId <;> simp [hx])
    s.chats s.activeChatId
  rw [hc] at hfind
  simp only [Option.map_some'] at hfind
  exact ⟨_, hfind, by simp [hcid]⟩

theorem C7_witness :
    p0.request.history = [] ∧ p0.request.newMessage = st0.userInput ∧
    p0.request.systemInstruction = st0.systemRules ∧
    p0.request.modelName = st0.currentModel ∧
    (1000 ≤ p0.request.maxOutputTokens ∧ p0.request.maxOutputTokens ≤ 2000) ∧
    ∃ c1, st0after.chats.find? (fun x => x.id == st0.activeChatId) = some c1 ∧
      c1.messages = [] ++ [⟨"user", st0.userInput⟩] := by
  have h := C7_request_shape st0 st0after p0 ⟨1, "New Chat", []⟩
    (by decide) (by decide)
  exact h

/-- Decoding inverts encoding, message-list level. -/
theorem jsonDecodeMessages_encode (ms : List Message) :
    jsonDecodeMessages (ms.map jsonEncodeMessage) = some ms := by
  induction ms with
  | nil => rfl
  | cons m t ih =>
      simp [jsonDecodeMessages, jsonDecodeMessage, jsonEncodeMessage, ih]

/-- Decoding inverts encoding, single-chat level. -/
theorem jsonDecodeChat_encode (c : Chat) :
    jsonDecodeChat (jsonEncodeChat c) = some c := by
  simp [jsonDecodeChat, jsonEncodeChat, jsonDecodeMessages_encode]

/-- Decoding inverts encoding, chat-list level. -/
theorem jsonDecodeChatList_encode (cs : List Chat) :
    jsonDecodeChatList (cs.map jsonEncodeChat) = some cs := by
  induction cs with
  | nil => rfl
  | cons c t ih =>
      simp [jsonDecodeChatList, jsonDecodeChat_encode, ih]

/-- C9: serialising any conversation collection to the persisted JSON
document and parsing it back yields exactly the same ordered sequence of
conversations, each with identical id, title and message sequence. -/
theorem C9_roundtrip (cs : List Chat) :
    jsonDecodeChats (jsonEncodeChats cs) = some cs := by
  simp [jsonDecodeChats, jsonEncodeChats, jsonDecodeChatList_encode]
